import Mathlib

/-!
# Cargo Integrity State Engine — verification development

Shallow embedding of the Cargo Integrity State Engine of
`src/transport-dashboard.jsx`: crop profiles, the trip-telemetry snapshot,
the append-only incident log with its cumulative integrity score, the
temperature-history ring buffer, threshold classification, the financial
loss estimator, and the operations that mutate a trip session
(manual overrides, instant scenario injection, the auto-play tick, crop
selection, auto-play start/stop).

Numbers: JS numbers used by the engine are modelled as `ℚ` (temperatures,
g-forces, tilt, money) and `ℤ` (scores and deductions, which are integral
throughout the source).  Presentation-only values (colors, labels, emoji,
chart geometry) are not part of the embedding.
-/

namespace Postharvest

/-- A crop profile (`CROP_PROFILES` entries).  Display-only string fields
(`emoji`, `shelfLife`, `scienceNote`) are omitted; the engine never reads
them. -/
structure CropProfile where
  cargoValue : ℚ
  tempDanger : ℚ
  tempWarning : ℚ
  gforceCritical : ℚ
  gforceWarning : ℚ
  tiltCritical : ℚ
  sensitivity : String
deriving DecidableEq, Repr

/-- The three registered commodities (keys of `CROP_PROFILES`). -/
inductive Crop where
  | Tomatoes
  | Bananas
  | Potatoes
deriving DecidableEq, Repr

/-- The static `CROP_PROFILES` table. -/
def CROP_PROFILES : Crop → CropProfile
  | .Tomatoes =>
    { cargoValue := 10000, tempDanger := 30, tempWarning := 27
      gforceCritical := 2.0, gforceWarning := 1.5, tiltCritical := 25
      sensitivity := "Medium" }
  | .Bananas =>
    { cargoValue := 8000, tempDanger := 25, tempWarning := 22
      gforceCritical := 1.5, gforceWarning := 1.0, tiltCritical := 20
      sensitivity := "High" }
  | .Potatoes =>
    { cargoValue := 6000, tempDanger := 35, tempWarning := 30
      gforceCritical := 3.0, gforceWarning := 2.0, tiltCritical := 30
      sensitivity := "Low" }

/-- An incident-log row.  Field names follow the source objects
(`id`, `time`, `event`, `type`, `gforce`, `temp`, `deduction`, `sim`). -/
structure Incident where
  id : ℕ
  time : String
  event : String
  type : String
  gforce : ℚ
  temp : ℚ
  deduction : ℤ
  sim : Bool
deriving DecidableEq, Repr

/-- `INITIAL_INCIDENTS` — the seeded trip log. -/
def INITIAL_INCIDENTS : List Incident :=
  [ { id := 1, time := "09:02", event := "Trip Started",        type := "info",     gforce := 0.2, temp := 24.1, deduction := 0,  sim := false }
  , { id := 2, time := "09:47", event := "Hard Braking",        type := "warning",  gforce := 1.8, temp := 24.8, deduction := 2,  sim := false }
  , { id := 3, time := "10:15", event := "Severe Pothole",      type := "critical", gforce := 3.1, temp := 25.3, deduction := 5,  sim := false }
  , { id := 4, time := "10:52", event := "Sharp Corner",        type := "warning",  gforce := 1.4, temp := 26.1, deduction := 1,  sim := false }
  , { id := 5, time := "11:45", event := "AC Fluctuation",      type := "critical", gforce := 0.3, temp := 32.0, deduction := 7,  sim := false }
  , { id := 6, time := "12:20", event := "Road Vibration",      type := "warning",  gforce := 1.1, temp := 29.4, deduction := 1,  sim := false }
  , { id := 7, time := "12:58", event := "Sudden Stop",         type := "warning",  gforce := 2.1, temp := 28.5, deduction := 3,  sim := false }
  , { id := 8, time := "13:10", event := "Destination Arrived", type := "info",     gforce := 0.1, temp := 28.5, deduction := 0,  sim := false } ]

/-- A `{time, temp}` sample of the temperature-history buffer. -/
structure TempSample where
  time : String
  temp : ℚ
deriving DecidableEq, Repr

/-- `INITIAL_TEMP_HISTORY`. -/
def INITIAL_TEMP_HISTORY : List TempSample :=
  [ ⟨"09:00", 24.0⟩, ⟨"09:30", 24.3⟩, ⟨"10:00", 24.9⟩, ⟨"10:15", 25.3⟩
  , ⟨"10:30", 25.8⟩, ⟨"11:00", 26.5⟩, ⟨"11:30", 27.2⟩, ⟨"11:45", 32.0⟩
  , ⟨"12:00", 31.4⟩, ⟨"12:15", 30.1⟩, ⟨"12:30", 29.6⟩, ⟨"12:45", 29.1⟩
  , ⟨"13:00", 28.5⟩, ⟨"13:10", 28.5⟩ ]

/-- `BASE_CIS = 88`. -/
def BASE_CIS : ℤ := 88

/-- `calcMarketLoss(cis, cargoValue) = -((100 - cis) / 100 * cargoValue)`. -/
def calcMarketLoss (cis cargoValue : ℚ) : ℚ :=
  -((100 - cis) / 100 * cargoValue)

/-- `computeCIS(incidents) = Math.max(0, BASE_CIS - incidents.reduce((s,i) => s + i.deduction, 0))`. -/
def computeCIS (incidents : List Incident) : ℤ :=
  max 0 (BASE_CIS - incidents.foldl (fun s i => s + i.deduction) 0)

/-- `getTempStatusKey(temp, profile)`. -/
def getTempStatusKey (temp : ℚ) (profile : CropProfile) : String :=
  if temp > profile.tempDanger then "critical"
  else if temp > profile.tempWarning then "warning"
  else "optimal"

/-- `getGForceStatusKey(g, profile)`. -/
def getGForceStatusKey (g : ℚ) (profile : CropProfile) : String :=
  if g > profile.gforceCritical then "critical"
  else if g > profile.gforceWarning then "warning"
  else "stable"

/-- `getTiltStatusKey(tilt, profile)`. -/
def getTiltStatusKey (tilt : ℚ) (profile : CropProfile) : String :=
  if tilt > profile.tiltCritical then "critical"
  else if tilt > profile.tiltCritical * 0.6 then "warning"
  else "stable"

/-- The central `tripData` state object. -/
structure TripData where
  cisScore : ℤ
  currentTemp : ℚ
  peakGForce : ℚ
  currentTilt : ℚ
deriving DecidableEq, Repr

/-- One trip session of the `Dashboard` component: the React state cells
(`crop`, `tripData`, `incidents`, `tempHistory`, `isAutoPlay`) plus the
`idRef` mutable ref.  The incident list holds `Option Incident` because the
source can push `undefined` onto `incidents` (the unmatched branch of
`handleInject` leaves `entry` undefined); a well-formed row is `some i`.
Presentation-only cells (`dropOpen`, `drawerOpen`, `flashEvent`,
`newRowId`) are omitted. -/
structure Session where
  crop : Crop
  tripData : TripData
  incidents : List (Option Incident)
  tempHistory : List TempSample
  idRef : ℕ
  isAutoPlay : Bool
deriving DecidableEq, Repr

/-- `[...h.slice(-19), x]` — keep the last 19 samples and append the new
one (the 20-entry ring-buffer push used by `handleTempChange`, the
`"ac"` injection and the auto-play tick). -/
def pushTempSample (h : List TempSample) (x : TempSample) : List TempSample :=
  h.drop (h.length - 19) ++ [x]

/-- `handleTempChange(val)` — the time string `t` (`nowTime().slice(0,5)`)
is passed in as a parameter.  Note: the value is stored unchanged; no
clamp appears in the handler (the slider element carries
`min={15} max={45}`). -/
def handleTempChange (t : String) (val : ℚ) (s : Session) : Session :=
  { s with
    tripData := { s.tripData with currentTemp := val }
    tempHistory := pushTempSample s.tempHistory ⟨t, val⟩ }

/-- `handleGForceChange(val)` — stores the value unchanged (the slider
element carries `min={0.5} max={5.0}`). -/
def handleGForceChange (val : ℚ) (s : Session) : Session :=
  { s with tripData := { s.tripData with peakGForce := val } }

/-- `handleInject(type)`.  The id counter is incremented first; the three
recognised scenario keys are `"pothole"`, `"ac"` and `"shift"` (the
strings passed by the injection buttons).  Any other key leaves `entry`
undefined and still executes `setIncidents(prev => [...prev, entry])`,
modelled by appending `none`.  The transient flash/new-row timers are
presentation state and are not modelled. -/
def handleInject (t : String) (ty : String) (s : Session) : Session :=
  let id := s.idRef + 1
  if ty = "pothole" then
    let deduction : ℤ := 5
    let entry : Incident :=
      { id := id, time := t, event := "🕳 Simulated Pothole", type := "critical"
        gforce := 3.5, temp := s.tripData.currentTemp, deduction := deduction, sim := true }
    { s with
      idRef := id
      tripData := { s.tripData with
        peakGForce := 3.5
        cisScore := max 0 (s.tripData.cisScore - deduction) }
      incidents := s.incidents ++ [some entry] }
  else if ty = "ac" then
    let deduction : ℤ := 10
    let entry : Incident :=
      { id := id, time := t, event := "🌡 Simulated AC Failure", type := "critical"
        gforce := s.tripData.peakGForce, temp := 35.0, deduction := deduction, sim := true }
    { s with
      idRef := id
      tripData := { s.tripData with
        currentTemp := 35.0
        cisScore := max 0 (s.tripData.cisScore - deduction) }
      incidents := s.incidents ++ [some entry]
      tempHistory := pushTempSample s.tempHistory ⟨t, 35.0⟩ }
  else if ty = "shift" then
    let deduction : ℤ := 6
    let entry : Incident :=
      { id := id, time := t, event := "📦 Simulated Cargo Shift", type := "critical"
        gforce := s.tripData.peakGForce, temp := s.tripData.currentTemp, deduction := deduction, sim := true }
    { s with
      idRef := id
      tripData := { s.tripData with
        currentTilt := 28
        cisScore := max 0 (s.tripData.cisScore - deduction) }
      incidents := s.incidents ++ [some entry] }
  else
    { s with idRef := id, incidents := s.incidents ++ [none] }

/-- One auto-play interval tick (the `setInterval` body).  The two random
draws are parameters: `drift` stands for `+(Math.random()*1.0-0.5).toFixed(1)`
applied inside the sum (any rational drift covers the actual one-decimal
draws) and, when `shockFires` (`Math.random() < 0.3`), `shockVal` stands for
`+(0.5 + Math.random()*(profile.gforceCritical*1.8)).toFixed(1)`. -/
def tick (t : String) (drift : ℚ) (shockFires : Bool) (shockVal : ℚ) (s : Session) : Session :=
  let profile := CROP_PROFILES s.crop
  let newTemp := min 45 (max 15 (s.tripData.currentTemp + drift))
  let newG := if shockFires then shockVal else s.tripData.peakGForce
  if shockFires = true ∧ newG > profile.gforceCritical then
    let pen : ℤ := if newG > profile.gforceCritical * 1.5 then 3 else 1
    let newId := s.idRef + 1
    let entry : Incident :=
      { id := newId, time := t, event := "⚡ Auto: Road Shock"
        type := if newG > profile.gforceCritical * 1.3 then "critical" else "warning"
        gforce := newG, temp := newTemp, deduction := pen, sim := true }
    { s with
      idRef := newId
      incidents := s.incidents ++ [some entry]
      tempHistory := pushTempSample s.tempHistory ⟨t, newTemp⟩
      tripData := { s.tripData with
        currentTemp := newTemp, peakGForce := newG
        cisScore := max 0 (s.tripData.cisScore - pen) } }
  else
    { s with
      tempHistory := pushTempSample s.tempHistory ⟨t, newTemp⟩
      tripData := { s.tripData with currentTemp := newTemp, peakGForce := newG } }

/-- `setCrop(name)` — switches the active profile; touches nothing else. -/
def selectCrop (c : Crop) (s : Session) : Session :=
  { s with crop := c }

/-- `start()` — `isAutoPlay := true` (the UI toggle realises it via
`setIsAutoPlay(v => !v)`; the effect arms the interval whenever
`isAutoPlay` becomes true). -/
def startAutoPlay (s : Session) : Session :=
  { s with isAutoPlay := true }

/-- `stop()` — `isAutoPlay := false`; the effect clears the interval. -/
def stopAutoPlay (s : Session) : Session :=
  { s with isAutoPlay := false }

/-- The initial session state of `Dashboard`. -/
def initSession : Session :=
  { crop := .Tomatoes
    tripData :=
      { cisScore := computeCIS INITIAL_INCIDENTS
        currentTemp := 28.5, peakGForce := 3.1, currentTilt := 12 }
    incidents := INITIAL_INCIDENTS.map some
    tempHistory := INITIAL_TEMP_HISTORY
    idRef := 100
    isAutoPlay := false }

/-- One engine step: any operation the UI can trigger, with arbitrary
arguments.  A tick step requires the interval to be armed
(`isAutoPlay = true`). -/
inductive Step : Session → Session → Prop where
  | tempChange (t : String) (val : ℚ) (s : Session) : Step s (handleTempChange t val s)
  | gforceChange (val : ℚ) (s : Session) : Step s (handleGForceChange val s)
  | inject (t ty : String) (s : Session) : Step s (handleInject t ty s)
  | tick (t : String) (drift : ℚ) (shockFires : Bool) (shockVal : ℚ) (s : Session)
      (h : s.isAutoPlay = true) : Step s (tick t drift shockFires shockVal s)
  | selectCrop (c : Crop) (s : Session) : Step s (selectCrop c s)
  | start (s : Session) : Step s (startAutoPlay s)
  | stop (s : Session) : Step s (stopAutoPlay s)

/-- States reachable from the initial session by any operation sequence. -/
def Reachable (s : Session) : Prop :=
  Relation.ReflTransGen Step initSession s

/-- Sum of the deductions of the well-formed rows of an incident list
(`incidents.reduce((s,i) => s + i.deduction, 0)`). -/
def deductionSum (l : List (Option Incident)) : ℤ :=
  (l.filterMap id).foldl (fun a i => a + i.deduction) 0

/-- The ids of the well-formed rows, in append order. -/
def incidentIds (l : List (Option Incident)) : List ℕ :=
  (l.filterMap id).map Incident.id

/-- The ledger-append pattern inlined at every incident-creating site of
the source (the three `handleInject` branches and the auto-play shock
branch), generalised over the entry: push the row and update
`cisScore := max 0 (cisScore - deduction)`.  The source performs no
validation of the deduction anywhere — every call site passes a
hard-coded constant. -/
def appendIncident (s : Session) (i : Incident) : Session :=
  { s with
    tripData := { s.tripData with
      cisScore := max 0 (s.tripData.cisScore - i.deduction) }
    incidents := s.incidents ++ [some i] }

/-- One firing of the auto-play interval: possible only while the
interval is armed (`isAutoPlay = true`; the effect clears the interval
whenever it flips to false). -/
def TickStep (s s' : Session) : Prop :=
  s.isAutoPlay = true ∧
  ∃ t drift shockFires shockVal, s' = tick t drift shockFires shockVal s

/-- Test fixture: the initial session with the score reset to
`BASE_CIS = 88` (a fresh trip with no seed deductions). -/
def initSession88 : Session :=
  { initSession with tripData := { initSession.tripData with cisScore := 88 } }

/-! ## The session invariant -/

/-- The combined invariant of one trip session: the score equation, the
non-negativity of every recorded deduction, strictly increasing incident
ids bounded by the id counter, the seed/simulated id separation, and the
ring-buffer bound. -/
structure Inv (s : Session) : Prop where
  score_eq : s.tripData.cisScore = max 0 (BASE_CIS - deductionSum s.incidents)
  dedsum_nonneg : 0 ≤ deductionSum s.incidents
  ded_nonneg : ∀ i ∈ s.incidents.filterMap id, 0 ≤ i.deduction
  ids_chain : List.Chain' (· < ·) (incidentIds s.incidents)
  ids_le : ∀ n ∈ incidentIds s.incidents, n ≤ s.idRef
  idRef_ge : 100 ≤ s.idRef
  seed_sensor : ∀ i ∈ s.incidents.filterMap id, i.sim = false → i.id ≤ 8
  sim_id : ∀ i ∈ s.incidents.filterMap id, i.sim = true → 100 < i.id
  hist_le : s.tempHistory.length ≤ 20

theorem deductionSum_append_some (l : List (Option Incident)) (i : Incident) :
    deductionSum (l ++ [some i]) = deductionSum l + i.deduction := by
  simp [deductionSum, List.filterMap_append]

theorem deductionSum_append_none (l : List (Option Incident)) :
    deductionSum (l ++ [none]) = deductionSum l := by
  simp [deductionSum, List.filterMap_append]

theorem incidentIds_append_some (l : List (Option Incident)) (i : Incident) :
    incidentIds (l ++ [some i]) = incidentIds l ++ [i.id] := by
  simp [incidentIds, List.filterMap_append]

theorem incidentIds_append_none (l : List (Option Incident)) :
    incidentIds (l ++ [none]) = incidentIds l := by
  simp [incidentIds, List.filterMap_append]

/-- The local update `max 0 (score - d)` agrees with the global equation
`max 0 (B - Σ)` whenever the deduction is non-negative. -/
theorem score_max_step (B S d : ℤ) (hd : 0 ≤ d) :
    max 0 (max 0 (B - S) - d) = max 0 (B - (S + d)) := by
  simp only [max_def]; split_ifs <;> omega

theorem chain'_append_lt (l : List ℕ) (n : ℕ) (hc : List.Chain' (· < ·) l)
    (hn : ∀ m ∈ l, m < n) : List.Chain' (· < ·) (l ++ [n]) := by
  rw [List.chain'_append]
  refine ⟨hc, List.chain'_singleton n, ?_⟩
  intro x hx y hy
  simp at hy
  subst hy
  exact hn x (List.mem_of_mem_getLast? hx)

theorem length_pushTempSample (h : List TempSample) (x : TempSample) :
    (pushTempSample h x).length ≤ 20 := by
  simp [pushTempSample]; omega

/-- An operation that leaves the incident log, the score and the id
counter alone and keeps the history bounded preserves the invariant. -/
theorem inv_unchanged {s s' : Session} (hs : Inv s)
    (hinc : s'.incidents = s.incidents)
    (hscore : s'.tripData.cisScore = s.tripData.cisScore)
    (hidr : s'.idRef = s.idRef)
    (hth : s'.tempHistory.length ≤ 20) : Inv s' := by
  constructor
  · rw [hscore, hinc]; exact hs.score_eq
  · rw [hinc]; exact hs.dedsum_nonneg
  · rw [hinc]; exact hs.ded_nonneg
  · rw [hinc]; exact hs.ids_chain
  · rw [hinc, hidr]; exact hs.ids_le
  · rw [hidr]; exact hs.idRef_ge
  · rw [hinc]; exact hs.seed_sensor
  · rw [hinc]; exact hs.sim_id
  · exact hth

/-- Appending one simulated incident with the next id and a non-negative
deduction, updating the score by `max 0 (score - deduction)`, preserves
the invariant. -/
theorem inv_append_entry {s s' : Session} (hs : Inv s) (i : Incident)
    (hinc : s'.incidents = s.incidents ++ [some i])
    (hid : i.id = s.idRef + 1) (hsim : i.sim = true) (hd : 0 ≤ i.deduction)
    (hscore : s'.tripData.cisScore = max 0 (s.tripData.cisScore - i.deduction))
    (hidr : s'.idRef = s.idRef + 1)
    (hth : s'.tempHistory.length ≤ 20) : Inv s' := by
  constructor
  · rw [hscore, hs.score_eq, hinc, deductionSum_append_some,
      score_max_step _ _ _ hd]
  · rw [hinc, deductionSum_append_some]
    have := hs.dedsum_nonneg; omega
  · rw [hinc]
    intro j hj
    rw [List.filterMap_append] at hj
    rcases List.mem_append.mp hj with hj | hj
    · exact hs.ded_nonneg j hj
    · simp at hj; subst hj; exact hd
  · rw [hinc, incidentIds_append_some]
    refine chain'_append_lt _ _ hs.ids_chain ?_
    intro m hm
    have := hs.ids_le m hm
    omega
  · rw [hinc, incidentIds_append_some, hidr]
    intro n hn
    rcases List.mem_append.mp hn with hn | hn
    · have := hs.ids_le n hn; omega
    · simp at hn; subst hn; omega
  · rw [hidr]; have := hs.idRef_ge; omega
  · rw [hinc]
    intro j hj
    rw [List.filterMap_append] at hj
    rcases List.mem_append.mp hj with hj | hj
    · exact hs.seed_sensor j hj
    · simp at hj; subst hj
      intro hfalse; rw [hsim] at hfalse; cases hfalse
  · rw [hinc]
    intro j hj
    rw [List.filterMap_append] at hj
    rcases List.mem_append.mp hj with hj | hj
    · exact hs.sim_id j hj
    · simp at hj; subst hj
      intro _; have := hs.idRef_ge; omega
  · exact hth

/-- Appending the `undefined` row of an unrecognised injection (counter
bumped, nothing else touched) preserves the invariant. -/
theorem inv_append_none {s s' : Session} (hs : Inv s)
    (hinc : s'.incidents = s.incidents ++ [none])
    (hscore : s'.tripData.cisScore = s.tripData.cisScore)
    (hidr : s'.idRef = s.idRef + 1)
    (hth : s'.tempHistory.length ≤ 20) : Inv s' := by
  constructor
  · rw [hscore, hinc, deductionSum_append_none]; exact hs.score_eq
  · rw [hinc, deductionSum_append_none]; exact hs.dedsum_nonneg
  · rw [hinc]; intro j hj
    rw [List.filterMap_append] at hj
    rcases List.mem_append.mp hj with hj | hj
    · exact hs.ded_nonneg j hj
    · simp at hj
  · rw [hinc, incidentIds_append_none]; exact hs.ids_chain
  · rw [hinc, incidentIds_append_none, hidr]
    intro n hn; have := hs.ids_le n hn; omega
  · rw [hidr]; have := hs.idRef_ge; omega
  · rw [hinc]; intro j hj
    rw [List.filterMap_append] at hj
    rcases List.mem_append.mp hj with hj | hj
    · exact hs.seed_sensor j hj
    · simp at hj
  · rw [hinc]; intro j hj
    rw [List.filterMap_append] at hj
    rcases List.mem_append.mp hj with hj | hj
    · exact hs.sim_id j hj
    · simp at hj
  · exact hth

theorem inv_initSession : Inv initSession := by
  constructor
  · decide
  · decide
  · decide
  · rw [show incidentIds initSession.incidents = [1, 2, 3, 4, 5, 6, 7, 8] from by decide]
    simp
  · decide
  · decide
  · decide
  · decide
  · decide

theorem inv_tempChange (t : String) (val : ℚ) (s : Session) (hs : Inv s) :
    Inv (handleTempChange t val s) :=
  inv_unchanged hs rfl rfl rfl (length_pushTempSample s.tempHistory ⟨t, val⟩)

theorem inv_gforceChange (val : ℚ) (s : Session) (hs : Inv s) :
    Inv (handleGForceChange val s) :=
  inv_unchanged hs rfl rfl rfl hs.hist_le

theorem inv_selectCrop (c : Crop) (s : Session) (hs : Inv s) :
    Inv (selectCrop c s) :=
  inv_unchanged hs rfl rfl rfl hs.hist_le

theorem inv_startAutoPlay (s : Session) (hs : Inv s) : Inv (startAutoPlay s) :=
  inv_unchanged hs rfl rfl rfl hs.hist_le

theorem inv_stopAutoPlay (s : Session) (hs : Inv s) : Inv (stopAutoPlay s) :=
  inv_unchanged hs rfl rfl rfl hs.hist_le

theorem inv_inject (t ty : String) (s : Session) (hs : Inv s) :
    Inv (handleInject t ty s) := by
  by_cases h1 : ty = "pothole"
  · subst h1
    exact inv_append_entry hs _ rfl rfl rfl (by norm_num) rfl rfl hs.hist_le
  · by_cases h2 : ty = "ac"
    · subst h2
      refine inv_append_entry hs
        { id := s.idRef + 1, time := t, event := "🌡 Simulated AC Failure", type := "critical"
          gforce := s.tripData.peakGForce, temp := 35.0, deduction := 10, sim := true }
        ?_ rfl rfl (by norm_num) ?_ ?_ ?_
      · simp [handleInject, h1]
      · simp [handleInject, h1]
      · simp [handleInject, h1]
      · simp only [handleInject, h1]
        norm_num
        exact length_pushTempSample _ _
    · by_cases h3 : ty = "shift"
      · subst h3
        refine inv_append_entry hs
          { id := s.idRef + 1, time := t, event := "📦 Simulated Cargo Shift", type := "critical"
            gforce := s.tripData.peakGForce, temp := s.tripData.currentTemp, deduction := 6, sim := true }
          ?_ rfl rfl (by norm_num) ?_ ?_ ?_
        · simp [handleInject, h1, h2]
        · simp [handleInject, h1, h2]
        · simp [handleInject, h1, h2]
        · simp only [handleInject, h1, h2]
          norm_num
          exact hs.hist_le
      · refine inv_append_none hs ?_ ?_ ?_ ?_
        · simp [handleInject, h1, h2, h3]
        · simp [handleInject, h1, h2, h3]
        · simp [handleInject, h1, h2, h3]
        · simp only [handleInject, h1, h2, h3]
          norm_num
          exact hs.hist_le

theorem inv_tick (t : String) (drift : ℚ) (shockFires : Bool) (shockVal : ℚ)
    (s : Session) (hs : Inv s) : Inv (tick t drift shockFires shockVal s) := by
  simp only [tick]
  split_ifs <;>
    first
      | exact inv_append_entry hs _ rfl rfl rfl (by norm_num) rfl rfl
          (length_pushTempSample _ _)
      | exact inv_unchanged hs rfl rfl rfl (length_pushTempSample _ _)

theorem inv_step {s s' : Session} (h : Step s s') (hs : Inv s) : Inv s' := by
  cases h with
  | tempChange t val s => exact inv_tempChange t val s hs
  | gforceChange val s => exact inv_gforceChange val s hs
  | inject t ty s => exact inv_inject t ty s hs
  | tick t drift shockFires shockVal s hap => exact inv_tick t drift shockFires shockVal s hs
  | selectCrop c s => exact inv_selectCrop c s hs
  | start s => exact inv_startAutoPlay s hs
  | stop s => exact inv_stopAutoPlay s hs

/-- Every reachable session state satisfies the invariant. -/
theorem inv_reachable {s : Session} (h : Reachable s) : Inv s := by
  induction h with
  | refl => exact inv_initSession
  | tail _ hbc ih => exact inv_step hbc ih

/-! ## Ring-buffer characterisation -/

/-- Folding the 20-entry ring-buffer push over any sample list keeps
exactly the last 20 elements of initial-buffer-plus-samples. -/
theorem foldl_push_eq (xs h : List TempSample) (hh : h.length ≤ 20) :
    List.foldl pushTempSample h xs = (h ++ xs).drop ((h ++ xs).length - 20) := by
  induction xs using List.reverseRecOn with
  | nil => simp [Nat.sub_eq_zero_of_le hh]
  | append_singleton ys y ih =>
    rw [List.foldl_append, List.foldl_cons, List.foldl_nil, ih,
      show h ++ (ys ++ [y]) = (h ++ ys) ++ [y] from (List.append_assoc h ys [y]).symm]
    generalize h ++ ys = L
    simp only [pushTempSample, List.length_drop, List.length_append, List.length_singleton]
    rw [List.drop_drop, List.drop_append_eq_append_drop]
    have h0 : L.length + 1 - 20 - L.length = 0 := by omega
    rw [h0, List.drop_zero]
    congr 2
    omega

/-- Score after folding any number of pothole injections over a session
with a non-negative score. -/
theorem pothole_fold_score (l : List String) (s : Session)
    (h0 : 0 ≤ s.tripData.cisScore) :
    (l.foldl (fun st u => handleInject u "pothole" st) s).tripData.cisScore =
      max 0 (s.tripData.cisScore - 5 * l.length) := by
  induction l generalizing s with
  | nil => simp [max_eq_right h0]
  | cons u l ih =>
    rw [List.foldl_cons, ih (handleInject u "pothole" s) (le_max_left _ _)]
    have h1 : (handleInject u "pothole" s).tripData.cisScore =
        max 0 (s.tripData.cisScore - 5) := rfl
    rw [h1, score_max_step s.tripData.cisScore 5 (5 * l.length) (by positivity)]
    congr 1
    simp only [List.length_cons]
    push_cast
    ring

/-! ## Claims -/

/-- C1: in every reachable state of a trip session, the integrity score
equals `max 0 (BASE_CIS - Σ deductions of all incidents appended so far)`
with `BASE_CIS = 88`, and hence `0 ≤ cisScore ≤ 100`. -/
theorem C1_score_invariant (s : Session) (hs : Reachable s) :
    s.tripData.cisScore = max 0 (BASE_CIS - deductionSum s.incidents) ∧
    0 ≤ s.tripData.cisScore ∧ s.tripData.cisScore ≤ 100 := by
  have h := inv_reachable hs
  refine ⟨h.score_eq, ?_, ?_⟩
  · rw [h.score_eq]; exact le_max_left _ _
  · rw [h.score_eq]
    have := h.dedsum_nonneg
    simp only [BASE_CIS, max_def]
    split_ifs <;> omega

/-- Witness for C1 at the state reached by one pothole injection. -/
theorem C1_score_invariant_witness :
    (handleInject "13:30" "pothole" initSession).tripData.cisScore =
      max 0 (BASE_CIS -
        deductionSum (handleInject "13:30" "pothole" initSession).incidents) ∧
    0 ≤ (handleInject "13:30" "pothole" initSession).tripData.cisScore ∧
    (handleInject "13:30" "pothole" initSession).tripData.cisScore ≤ 100 :=
  C1_score_invariant _
    (Relation.ReflTransGen.single (Step.inject "13:30" "pothole" initSession))

/-- C2 counterexample: the scenario key `"ac_failure"` is not in the
code's injection table (the keys are `"pothole"`, `"ac"`, `"shift"`), so
injecting it does not set the temperature to 35 °C and appends an
undefined row instead of an incident with deduction 10. -/
theorem C2_counterexample :
    (handleInject "13:30" "ac_failure" initSession).tripData.currentTemp = 28.5 ∧
    (handleInject "13:30" "ac_failure" initSession).tripData.currentTemp ≠ 35 ∧
    (handleInject "13:30" "ac_failure" initSession).incidents.getLast? =
      some none := by
  refine ⟨?_, ?_, ?_⟩
  · simp [handleInject, initSession]
  · simp [handleInject, initSession]
    norm_num
  · simp [handleInject, List.getLast?_concat]

/-- C2 (amended): the injection table is keyed `"pothole"`, `"ac"`,
`"shift"`; each key applies exactly its table entry — one telemetry
override plus one critical incident append with deduction 5 / 10 / 6 —
regardless of prior state, and folding pothole injections over a session
with non-negative score yields `max 0 (score - 5·n)`, so 20 of them from
score 88 reach 0 and the score is never negative. -/
theorem C2_inject_effects (t : String) (s : Session) :
    ((handleInject t "pothole" s).tripData.peakGForce = 3.5 ∧
      (handleInject t "pothole" s).tripData.cisScore = max 0 (s.tripData.cisScore - 5) ∧
      (handleInject t "pothole" s).incidents = s.incidents ++
        [some { id := s.idRef + 1, time := t, event := "🕳 Simulated Pothole",
                type := "critical", gforce := 3.5, temp := s.tripData.currentTemp,
                deduction := 5, sim := true }]) ∧
    ((handleInject t "ac" s).tripData.currentTemp = 35.0 ∧
      (handleInject t "ac" s).tempHistory = pushTempSample s.tempHistory ⟨t, 35.0⟩ ∧
      (handleInject t "ac" s).tripData.cisScore = max 0 (s.tripData.cisScore - 10) ∧
      (handleInject t "ac" s).incidents = s.incidents ++
        [some { id := s.idRef + 1, time := t, event := "🌡 Simulated AC Failure",
                type := "critical", gforce := s.tripData.peakGForce, temp := 35.0,
                deduction := 10, sim := true }]) ∧
    ((handleInject t "shift" s).tripData.currentTilt = 28 ∧
      (handleInject t "shift" s).tripData.cisScore = max 0 (s.tripData.cisScore - 6) ∧
      (handleInject t "shift" s).incidents = s.incidents ++
        [some { id := s.idRef + 1, time := t, event := "📦 Simulated Cargo Shift",
                type := "critical", gforce := s.tripData.peakGForce,
                temp := s.tripData.currentTemp, deduction := 6, sim := true }]) ∧
    (∀ l : List String, 0 ≤ s.tripData.cisScore →
      (l.foldl (fun st u => handleInject u "pothole" st) s).tripData.cisScore =
        max 0 (s.tripData.cisScore - 5 * l.length)) := by
  refine ⟨⟨?_, ?_, ?_⟩, ⟨?_, ?_, ?_, ?_⟩, ⟨?_, ?_, ?_⟩, fun l h0 => pothole_fold_score l s h0⟩ <;>
    simp [handleInject]

/-- Witness for C2: twenty pothole injections from score 88 end at 0. -/
theorem C2_inject_effects_witness :
    ((List.replicate 20 "t").foldl (fun st u => handleInject u "pothole" st)
      initSession88).tripData.cisScore = 0 := by
  have h := (C2_inject_effects "t" initSession88).2.2.2
    (List.replicate 20 "t") (by decide)
  simpa using h

/-- C3 counterexample: the slider handlers do not clamp — storing 100 °C
stays 100 (not 45) and storing 10 g stays 10 (not 5). -/
theorem C3_counterexample :
    (handleTempChange "13:30" 100 initSession).tripData.currentTemp = 100 ∧
    (handleTempChange "13:30" 100 initSession).tripData.currentTemp ≠ 45 ∧
    (handleGForceChange 10 initSession).tripData.peakGForce = 10 ∧
    (handleGForceChange 10 initSession).tripData.peakGForce ≠ 5 := by
  decide

/-- C3 (amended): `handleTempChange` stores the given value unchanged as
`currentTemp` and appends exactly one history sample and no incident;
`handleGForceChange` stores the given value unchanged as `peakGForce` and
appends nothing.  The `[15, 45]` / `[0.5, 5.0]` range restriction lives in
the slider input element, not in the handlers, so out-of-range arguments
are stored as-is (never an error). -/
theorem C3_manual_overrides (t : String) (v : ℚ) (s : Session) :
    (handleTempChange t v s).tripData.currentTemp = v ∧
    (handleTempChange t v s).tempHistory = pushTempSample s.tempHistory ⟨t, v⟩ ∧
    (handleTempChange t v s).incidents = s.incidents ∧
    (handleGForceChange v s).tripData.peakGForce = v ∧
    (handleGForceChange v s).tempHistory = s.tempHistory ∧
    (handleGForceChange v s).incidents = s.incidents :=
  ⟨rfl, rfl, rfl, rfl, rfl, rfl⟩

/-- C4 (code bug): injecting an unrecognised scenario name raises no
error; it increments the id counter and appends an undefined row to the
incident log (`entry` is never assigned, yet
`setIncidents(prev => [...prev, entry])` still runs), leaving the
telemetry snapshot unchanged — the claimed `UnknownScenario` failure with
untouched log and counter does not exist in the code. -/
theorem C4_unknown_inject :
    (handleInject "13:30" "blizzard" initSession).incidents =
      initSession.incidents ++ [none] ∧
    (handleInject "13:30" "blizzard" initSession).idRef = 101 ∧
    (handleInject "13:30" "blizzard" initSession).tripData =
      initSession.tripData := by
  refine ⟨?_, ?_, ?_⟩ <;> simp [handleInject, initSession]

/-- C5 counterexample: the ledger append performs no deduction
validation — appending an incident with deduction −1 succeeds, grows the
log, and raises the score from 69 to 70 instead of failing with
`InvalidDeduction`. -/
theorem C5_counterexample :
    (appendIncident initSession
      { id := 101, time := "13:30", event := "Bad", type := "warning",
        gforce := 1, temp := 20, deduction := -1, sim := true }).incidents.length =
      initSession.incidents.length + 1 ∧
    (appendIncident initSession
      { id := 101, time := "13:30", event := "Bad", type := "warning",
        gforce := 1, temp := 20, deduction := -1, sim := true }).tripData.cisScore = 70 := by
  decide

/-- C5 (amended): no validation exists, but every deduction the program
ever appends is a hard-coded non-negative constant, so every incident
present in the log of any reachable state has deduction ≥ 0. -/
theorem C5_deduction_nonneg (s : Session) (hs : Reachable s) :
    ∀ i ∈ s.incidents.filterMap id, 0 ≤ i.deduction :=
  (inv_reachable hs).ded_nonneg

/-- Witness for C5: the invariant applied at the initial session to its
first logged incident. -/
theorem C5_deduction_nonneg_witness :
    0 ≤ (Incident.mk 1 "09:02" "Trip Started" "info" 0.2 24.1 0 false).deduction :=
  C5_deduction_nonneg initSession Relation.ReflTransGen.refl _
    (by rw [show initSession.incidents.filterMap id = INITIAL_INCIDENTS from rfl]
        exact List.mem_cons_self _ _)

/-- C6: the three classification functions are pure threshold checks with
strict greater-than on each bound (the boundary value itself falls in the
lower tier); for Tomatoes (`tempDanger = 30`), 30.0 °C classifies as
warning and 30.1 °C as critical. -/
theorem C6_classification (temp g tilt : ℚ) (p : CropProfile) :
    (getTempStatusKey temp p = "critical" ↔ temp > p.tempDanger) ∧
    (getTempStatusKey temp p = "warning" ↔
      temp ≤ p.tempDanger ∧ temp > p.tempWarning) ∧
    (getTempStatusKey temp p = "optimal" ↔
      temp ≤ p.tempDanger ∧ temp ≤ p.tempWarning) ∧
    (getGForceStatusKey g p = "critical" ↔ g > p.gforceCritical) ∧
    (getGForceStatusKey g p = "warning" ↔
      g ≤ p.gforceCritical ∧ g > p.gforceWarning) ∧
    (getGForceStatusKey g p = "stable" ↔
      g ≤ p.gforceCritical ∧ g ≤ p.gforceWarning) ∧
    (getTiltStatusKey tilt p = "critical" ↔ tilt > p.tiltCritical) ∧
    (getTiltStatusKey tilt p = "warning" ↔
      tilt ≤ p.tiltCritical ∧ tilt > p.tiltCritical * 0.6) ∧
    getTempStatusKey 30 (CROP_PROFILES .Tomatoes) = "warning" ∧
    getTempStatusKey 30.1 (CROP_PROFILES .Tomatoes) = "critical" := by
  refine ⟨?_, ?_, ?_, ?_, ?_, ?_, ?_, ?_, by decide,
    by norm_num [getTempStatusKey, CROP_PROFILES]⟩ <;>
    · simp only [getTempStatusKey, getGForceStatusKey, getTiltStatusKey]
      split_ifs <;> simp_all

/-- C7: in every reachable state the incident ids are strictly increasing
in append order (hence pairwise distinct, no id reused), and every
dynamically appended (simulated) incident has an id strictly greater than
every seed (sensor) incident's id. -/
theorem C7_monotonic_ids (s : Session) (hs : Reachable s) :
    List.Chain' (· < ·) (incidentIds s.incidents) ∧
    List.Pairwise (· ≠ ·) (incidentIds s.incidents) ∧
    (∀ i ∈ s.incidents.filterMap id, ∀ j ∈ s.incidents.filterMap id,
      i.sim = false → j.sim = true → i.id < j.id) := by
  have h := inv_reachable hs
  refine ⟨h.ids_chain, ?_, ?_⟩
  · exact (List.chain'_iff_pairwise.mp h.ids_chain).imp fun hlt => Nat.ne_of_lt hlt
  · intro i hi j hj hsi hsj
    have h1 := h.seed_sensor i hi hsi
    have h2 := h.sim_id j hj hsj
    omega

/-- Witness for C7 at the state reached by one pothole injection. -/
theorem C7_monotonic_ids_witness :
    List.Chain' (· < ·)
      (incidentIds (handleInject "13:30" "pothole" initSession).incidents) ∧
    List.Pairwise (· ≠ ·)
      (incidentIds (handleInject "13:30" "pothole" initSession).incidents) ∧
    (∀ i ∈ (handleInject "13:30" "pothole" initSession).incidents.filterMap id,
      ∀ j ∈ (handleInject "13:30" "pothole" initSession).incidents.filterMap id,
      i.sim = false → j.sim = true → i.id < j.id) :=
  C7_monotonic_ids _
    (Relation.ReflTransGen.single (Step.inject "13:30" "pothole" initSession))

/-- C8: the temperature history of every reachable state holds at most 20
samples, and pushing any 25 samples into a buffer of at most 20 leaves
exactly the 20 most recently pushed samples, oldest first. -/
theorem C8_ring_buffer (s : Session) (hs : Reachable s) (h : List TempSample)
    (hh : h.length ≤ 20) (xs : List TempSample) (hxs : xs.length = 25) :
    s.tempHistory.length ≤ 20 ∧
    (List.foldl pushTempSample h xs).length = 20 ∧
    List.foldl pushTempSample h xs = xs.drop 5 := by
  refine ⟨(inv_reachable hs).hist_le, ?_, ?_⟩
  · rw [foldl_push_eq xs h hh]
    simp [hxs]
  · rw [foldl_push_eq xs h hh, List.drop_append_eq_append_drop,
      List.drop_eq_nil_of_le (by simp [hxs]), List.nil_append]
    congr 1
    simp [hxs]

/-- Witness for C8 with 25 concrete samples pushed into an empty buffer. -/
theorem C8_ring_buffer_witness :
    (List.foldl pushTempSample []
      (List.replicate 25 (⟨"t", 20⟩ : TempSample))).length = 20 ∧
    List.foldl pushTempSample [] (List.replicate 25 (⟨"t", 20⟩ : TempSample)) =
      (List.replicate 25 (⟨"t", 20⟩ : TempSample)).drop 5 :=
  ⟨(C8_ring_buffer initSession Relation.ReflTransGen.refl [] (by decide)
      (List.replicate 25 ⟨"t", 20⟩) (by decide)).2.1,
   (C8_ring_buffer initSession Relation.ReflTransGen.refl [] (by decide)
      (List.replicate 25 ⟨"t", 20⟩) (by decide)).2.2⟩

/-- C9: `start` and `stop` are idempotent total functions (no error
path), and after `stop` no tick can fire: every tick-only trace from a
stopped session stays at that state, so no incident is appended and the
temperature does not drift until `start` is called again. -/
theorem C9_stop_absorbing (s s' : Session)
    (hticks : Relation.ReflTransGen TickStep (stopAutoPlay s) s') :
    startAutoPlay (startAutoPlay s) = startAutoPlay s ∧
    stopAutoPlay (stopAutoPlay s) = stopAutoPlay s ∧
    s' = stopAutoPlay s ∧
    s'.incidents = s.incidents ∧
    s'.tripData.currentTemp = s.tripData.currentTemp := by
  have habs : s' = stopAutoPlay s := by
    rcases Relation.ReflTransGen.cases_head hticks with h | ⟨c, hstep, _⟩
    · exact h.symm
    · exact absurd hstep.1 (by simp [stopAutoPlay])
  exact ⟨rfl, rfl, habs, by rw [habs]; rfl, by rw [habs]; rfl⟩

/-- Witness for C9 with the empty tick trace from the stopped initial
session. -/
theorem C9_stop_absorbing_witness :
    startAutoPlay (startAutoPlay initSession) = startAutoPlay initSession ∧
    stopAutoPlay (stopAutoPlay initSession) = stopAutoPlay initSession ∧
    stopAutoPlay initSession = stopAutoPlay initSession ∧
    (stopAutoPlay initSession).incidents = initSession.incidents ∧
    (stopAutoPlay initSession).tripData.currentTemp =
      initSession.tripData.currentTemp :=
  C9_stop_absorbing initSession (stopAutoPlay initSession)
    Relation.ReflTransGen.refl

/-- C10: `calcMarketLoss` is the pure function
`-((100 - cis) / 100 * cargoValue)`: it is 0 at score 100, `-v` at score
0, its magnitude strictly grows as the score falls through the score
domain (for positive cargo value), and at score 69 on a $10 000 cargo it
is −$3 100. -/
theorem C10_market_loss (v s1 s2 : ℚ) :
    calcMarketLoss 100 v = 0 ∧
    calcMarketLoss 0 v = -v ∧
    (s1 < s2 → s2 ≤ 100 → 0 < v →
      |calcMarketLoss s2 v| < |calcMarketLoss s1 v|) ∧
    calcMarketLoss 69 10000 = -3100 := by
  refine ⟨?_, ?_, ?_, ?_⟩
  · simp [calcMarketLoss]
  · norm_num [calcMarketLoss]
  · intro h12 h2 hv
    have e2 : (0:ℚ) ≤ (100 - s2) / 100 * v := by
      apply mul_nonneg _ hv.le
      apply div_nonneg _ (by norm_num)
      linarith
    have e1 : (0:ℚ) ≤ (100 - s1) / 100 * v := by
      apply mul_nonneg _ hv.le
      apply div_nonneg _ (by norm_num)
      linarith
    simp only [calcMarketLoss, abs_neg]
    rw [abs_of_nonneg e2, abs_of_nonneg e1]
    apply mul_lt_mul_of_pos_right _ hv
    apply div_lt_div_of_pos_right _ (by norm_num)
    linarith
  · norm_num [calcMarketLoss]

/-- Witness for C10 at scores 59 and 69 on the Tomatoes cargo value. -/
theorem C10_market_loss_witness :
    calcMarketLoss 100 10000 = 0 ∧
    calcMarketLoss 0 10000 = -10000 ∧
    |calcMarketLoss 69 10000| < |calcMarketLoss 59 10000| ∧
    calcMarketLoss 69 10000 = -3100 :=
  ⟨(C10_market_loss 10000 59 69).1, (C10_market_loss 10000 59 69).2.1,
   (C10_market_loss 10000 59 69).2.2.1 (by norm_num) (by norm_num) (by norm_num),
   (C10_market_loss 10000 59 69).2.2.2⟩

end Postharvest
